import Mathlib

/-!
# LightBeatGateway: the polling loop and the trigger session

A shallow embedding of `src/src/main.go` (`startSpotifySync`, `startTriggerSync`)
and of the older entry point `src/main.go` (`run`, `triggerBeats`).

* One pass of the body of the `for` loop of `startSpotifySync` / `run` is a
  function `tick` / `runTick` from the loop variables and the values obtained
  from the outside world in that pass to the effects performed and the loop
  variables after the pass.
* A trigger session is a function of the timeline, the playback position and
  the sequence of wake-ups of its `select` statement.

Times are `time.Duration` values, a count of nanoseconds.  The start and the
duration of a `TimeInterval` are held as the value the source obtains with
`time.Duration(x * float64(time.Second))`.  `Progress` is a count of
milliseconds; integer arithmetic on it is exact on `Int`, which agrees with the
machine arithmetic for every playback position below 2^31 ms.
-/

namespace LightBeatGateway

/-! ## Data model -/

/-- Run-time panics of the Go program that the embedded code can raise. -/
inductive Fault
  | nilCall             -- call of a nil function value
  | indexOutOfRange     -- slice index out of range
  | nonPositiveInterval -- `time.NewTicker` with an interval `<= 0`
  deriving DecidableEq, Repr

/-- Result of a piece of code that either completes or panics. -/
inductive Res (α : Type)
  | ok (a : α)
  | panic (f : Fault)
  deriving DecidableEq, Repr

/-- The type `type TriggerType string`. -/
abbrev TriggerType := String

/-- The constant `Beat TriggerType = "beat"`. -/
def Beat : TriggerType := "beat"

/-- The constant `Bar TriggerType = "bar"`. -/
def Bar : TriggerType := "bar"

/-- The `Item` of a `models.Media`: the fields the program reads. -/
structure MediaItem where
  ID : String
  Name : String
  deriving DecidableEq, Repr

/-- The snapshot `models.Media` returned by `spotify.GetCurrentlyPlaying`. -/
structure Media where
  Item : MediaItem
  IsPlaying : Bool
  Progress : Int
  deriving DecidableEq, Repr

/-- One entry of a timeline, `models.TimeInterval`; both fields in nanoseconds,
as converted by `time.Duration(x * float64(time.Second))`. -/
structure TimeInterval where
  Start : Int
  Duration : Int
  deriving DecidableEq, Repr

/-- The timelines of `models.MediaAudioAnalysis`. -/
structure MediaAudioAnalysis where
  Beats : List TimeInterval
  Bars : List TimeInterval
  deriving DecidableEq, Repr

/-- The result of `spotify.GetMediaAudioFeatures`; the loop only forwards it. -/
structure MediaAudioFeatures where
  deriving DecidableEq, Repr

/-- The constant `time.Millisecond` in nanoseconds. -/
def Millisecond : Int := 1000000

/-- The constant `time.Second` in nanoseconds. -/
def Second : Int := 1000000000

/-- The interval `tickerInterval := 2 * time.Second`. -/
def tickerInterval : Int := 2 * Second

/-! ## The polling loop `startSpotifySync` -/

/-- Observable actions of the polling loop.  Contexts made by
`context.WithCancel` are named by their creation rank. -/
inductive Effect
  | logStopping
  | cancelCall (ctx : Nat)
  | logStarting
  | withCancel (ctx : Nat)
  | sendNewMedia (m : Media)
  | sendMediaFeatures (f : MediaAudioFeatures)
  | goSession (ctx : Nat) (currPlay : Media) (a : MediaAudioAnalysis) (trigger : TriggerType)
  deriving DecidableEq, Repr

/-- The variables of `startSpotifySync` that live across iterations.  `cancel`
is `none` for the nil `context.CancelFunc`, `some k` for the cancel function of
context `k`; `ctxCount` counts the contexts created so far. -/
structure LoopState where
  lastPlaying : Media
  isDetecting : Bool
  lastTrigger : TriggerType
  cancel : Option Nat
  ctxCount : Nat
  deriving DecidableEq, Repr

/-- What one iteration obtains from outside: the polled snapshot, the value of
the global `currentTriggerType` (one value for the reads of one iteration), and
the results of the two fetches (`none` when `err != nil`). -/
structure TickInput where
  currPlay : Media
  currentTriggerType : TriggerType
  analysis : Option MediaAudioAnalysis
  features : Option MediaAudioFeatures
  deriving DecidableEq, Repr

/-- The state before the first iteration: `isDetecting := false`, `cancel` nil,
`lastTrigger := currentTriggerType`. -/
def initState (lastPlaying : Media) (currentTriggerType : TriggerType) : LoopState :=
  { lastPlaying := lastPlaying, isDetecting := false, lastTrigger := currentTriggerType,
    cancel := none, ctxCount := 0 }

/-- The flag `changeInPlayState := lastPlaying.IsPlaying != currPlay.IsPlaying`. -/
def changeInPlayState (lastPlaying currPlay : Media) : Bool :=
  lastPlaying.IsPlaying != currPlay.IsPlaying

/-- The flag `changeInMedia := lastPlaying.Item.ID != currPlay.Item.ID`. -/
def changeInMedia (lastPlaying currPlay : Media) : Bool :=
  lastPlaying.Item.ID != currPlay.Item.ID

/-- The value `progressDelta := time.Duration(math.Abs(float64(currPlay.Progress - lastPlaying.Progress)))`;
the passage through `float64` is exact for differences below 2^53. -/
def progressDelta (lastPlaying currPlay : Media) : Int :=
  |currPlay.Progress - lastPlaying.Progress|

/-- The flag `progressChanged := progressDelta > ((tickerInterval + time.Second) / time.Millisecond)`. -/
def progressChanged (lastPlaying currPlay : Media) : Bool :=
  decide (progressDelta lastPlaying currPlay > (tickerInterval + Second) / Millisecond)

/-- The flag `playingWithoutDetection := (!isDetecting && currPlay.IsPlaying)`. -/
def playingWithoutDetection (isDetecting : Bool) (currPlay : Media) : Bool :=
  !isDetecting && currPlay.IsPlaying

/-- The flag `triggerTypeChanged := currentTriggerType != lastTrigger`. -/
def triggerTypeChanged (currentTriggerType lastTrigger : TriggerType) : Bool :=
  currentTriggerType != lastTrigger

/-- The condition of the first `if` of `startSpotifySync` (the stop branch). -/
def stopCondition (s : LoopState) (inp : TickInput) : Bool :=
  ((changeInPlayState s.lastPlaying inp.currPlay && !inp.currPlay.IsPlaying)
    || changeInMedia s.lastPlaying inp.currPlay
    || progressChanged s.lastPlaying inp.currPlay
    || (triggerTypeChanged inp.currentTriggerType s.lastTrigger && inp.currPlay.IsPlaying))
  && !playingWithoutDetection s.isDetecting inp.currPlay

/-- The condition of the second `if` of `startSpotifySync` (the start branch).
`playingWithoutDetection` is the value computed before the stop branch. -/
def startCondition (s : LoopState) (inp : TickInput) : Bool :=
  ((changeInPlayState s.lastPlaying inp.currPlay && inp.currPlay.IsPlaying)
    || changeInMedia s.lastPlaying inp.currPlay
    || progressChanged s.lastPlaying inp.currPlay)
  || playingWithoutDetection s.isDetecting inp.currPlay
  || (triggerTypeChanged inp.currentTriggerType s.lastTrigger && inp.currPlay.IsPlaying)

/-- The stop branch: `log.Println("Stopping"); cancel(); isDetecting = false`.
Calling the nil `cancel` panics. -/
def stopBranch (s : LoopState) : List Effect × Res LoopState :=
  match s.cancel with
  | none => ([Effect.logStopping], Res.panic Fault.nilCall)
  | some k =>
    ([Effect.logStopping, Effect.cancelCall k], Res.ok { s with isDetecting := false })

/-- The start branch.  The third component tells whether the branch left the
iteration by `continue` (a failed fetch). -/
def startBranch (s : LoopState) (inp : TickInput) : List Effect × LoopState × Bool :=
  let k := s.ctxCount
  let s1 : LoopState := { s with cancel := some k, ctxCount := k + 1 }
  match inp.analysis with
  | none => ([Effect.logStarting, Effect.withCancel k], s1, true)
  | some mediaAnalysis =>
    match inp.features with
    | none =>
      ([Effect.logStarting, Effect.withCancel k, Effect.sendNewMedia inp.currPlay], s1, true)
    | some mediaFeatures =>
      ([Effect.logStarting, Effect.withCancel k, Effect.sendNewMedia inp.currPlay,
        Effect.sendMediaFeatures mediaFeatures,
        Effect.goSession k inp.currPlay mediaAnalysis inp.currentTriggerType],
       { s1 with isDetecting := true }, false)

/-- One iteration of the `for` loop of `startSpotifySync`. -/
def tick (s : LoopState) (inp : TickInput) : List Effect × Res LoopState :=
  if inp.currPlay.Item.ID = "" then ([], Res.ok s)
  else
    let stop := stopCondition s inp
    let start := startCondition s inp
    let afterStop : List Effect × Res LoopState :=
      if stop then stopBranch s else ([], Res.ok s)
    match afterStop with
    | (es, Res.panic f) => (es, Res.panic f)
    | (es, Res.ok s1) =>
      let afterStart : List Effect × LoopState × Bool :=
        if start then startBranch s1 inp else ([], s1, false)
      if afterStart.2.2 then (es ++ afterStart.1, Res.ok afterStart.2.1)
      else
        (es ++ afterStart.1,
         Res.ok { afterStart.2.1 with lastPlaying := inp.currPlay,
                                      lastTrigger := inp.currentTriggerType })

/-- The loop over a finite sequence of iterations; a panic ends it. -/
def loop (s : LoopState) : List TickInput → List Effect × Res LoopState
  | [] => ([], Res.ok s)
  | inp :: rest =>
    match tick s inp with
    | (es, Res.panic f) => (es, Res.panic f)
    | (es, Res.ok s1) => (es ++ (loop s1 rest).1, (loop s1 rest).2)

/-- The function `startSpotifySync` run for a finite number of iterations:
`lastPlaying` is the snapshot fetched before the loop, `currentTriggerType` the
value of the global at that time. -/
def startSpotifySync (lastPlaying : Media) (currentTriggerType : TriggerType)
    (ticks : List TickInput) : List Effect × Res LoopState :=
  loop (initState lastPlaying currentTriggerType) ticks

/-- Contexts of the sessions launched in a trace. -/
def launchedCtxs : List Effect → List Nat
  | [] => []
  | Effect.goSession k _ _ _ :: es => k :: launchedCtxs es
  | _ :: es => launchedCtxs es

/-- Contexts whose cancel function was called in a trace. -/
def cancelledCtxs : List Effect → List Nat
  | [] => []
  | Effect.cancelCall k :: es => k :: cancelledCtxs es
  | _ :: es => cancelledCtxs es

/-- Sessions launched and not cancelled in a trace. -/
def liveSessions (es : List Effect) : List Nat :=
  (launchedCtxs es).filter (fun k => !(cancelledCtxs es).contains k)

/-! ## The older polling loop `run` (no trigger type) -/

/-- The variables of `run` that live across iterations. -/
structure RunState where
  lastPlaying : Media
  isDetecting : Bool
  cancel : Option Nat
  ctxCount : Nat
  deriving DecidableEq, Repr

/-- What one iteration of `run` obtains from outside. -/
structure RunInput where
  currPlay : Media
  analysis : Option MediaAudioAnalysis
  features : Option MediaAudioFeatures
  deriving DecidableEq, Repr

/-- The condition of the first `if` of `run`. -/
def runStopCondition (s : RunState) (inp : RunInput) : Bool :=
  ((changeInPlayState s.lastPlaying inp.currPlay && !inp.currPlay.IsPlaying)
    || changeInMedia s.lastPlaying inp.currPlay
    || progressChanged s.lastPlaying inp.currPlay)
  && !playingWithoutDetection s.isDetecting inp.currPlay

/-- The condition of the second `if` of `run`. -/
def runStartCondition (s : RunState) (inp : RunInput) : Bool :=
  ((changeInPlayState s.lastPlaying inp.currPlay && inp.currPlay.IsPlaying)
    || changeInMedia s.lastPlaying inp.currPlay
    || progressChanged s.lastPlaying inp.currPlay)
  || playingWithoutDetection s.isDetecting inp.currPlay

/-- The stop branch of `run`. -/
def runStopBranch (s : RunState) : List Effect × Res RunState :=
  match s.cancel with
  | none => ([Effect.logStopping], Res.panic Fault.nilCall)
  | some k =>
    ([Effect.logStopping, Effect.cancelCall k], Res.ok { s with isDetecting := false })

/-- The start branch of `run`; the session launched is `triggerBeats`, which
always uses the beats.  The third component tells whether the branch left the
iteration by `continue`. -/
def runStartBranch (s : RunState) (inp : RunInput) : List Effect × RunState × Bool :=
  let k := s.ctxCount
  let s1 : RunState := { s with cancel := some k, ctxCount := k + 1 }
  match inp.analysis with
  | none => ([Effect.logStarting, Effect.withCancel k], s1, true)
  | some mediaAnalysis =>
    match inp.features with
    | none =>
      ([Effect.logStarting, Effect.withCancel k, Effect.sendNewMedia inp.currPlay], s1, true)
    | some mediaFeatures =>
      ([Effect.logStarting, Effect.withCancel k, Effect.sendNewMedia inp.currPlay,
        Effect.sendMediaFeatures mediaFeatures,
        Effect.goSession k inp.currPlay mediaAnalysis Beat],
       { s1 with isDetecting := true }, false)

/-- One iteration of the `for` loop of `run`. -/
def runTick (s : RunState) (inp : RunInput) : List Effect × Res RunState :=
  if inp.currPlay.Item.ID = "" then ([], Res.ok s)
  else
    let stop := runStopCondition s inp
    let start := runStartCondition s inp
    let afterStop : List Effect × Res RunState :=
      if stop then runStopBranch s else ([], Res.ok s)
    match afterStop with
    | (es, Res.panic f) => (es, Res.panic f)
    | (es, Res.ok s1) =>
      let afterStart : List Effect × RunState × Bool :=
        if start then runStartBranch s1 inp else ([], s1, false)
      if afterStart.2.2 then (es ++ afterStart.1, Res.ok afterStart.2.1)
      else (es ++ afterStart.1, Res.ok { afterStart.2.1 with lastPlaying := inp.currPlay })

/-- The state of `run` before the first iteration. -/
def runInitState (lastPlaying : Media) : RunState :=
  { lastPlaying := lastPlaying, isDetecting := false, cancel := none, ctxCount := 0 }

/-- The loop of `run` over a finite sequence of iterations; a panic ends it. -/
def runLoop (s : RunState) : List RunInput → List Effect × Res RunState
  | [] => ([], Res.ok s)
  | inp :: rest =>
    match runTick s inp with
    | (es, Res.panic f) => (es, Res.panic f)
    | (es, Res.ok s1) => (es ++ (runLoop s1 rest).1, (runLoop s1 rest).2)

/-- The function `run` for a finite number of iterations. -/
def run (lastPlaying : Media) (ticks : List RunInput) : List Effect × Res RunState :=
  runLoop (runInitState lastPlaying) ticks

/-! ## The trigger session `startTriggerSync` / `triggerBeats` -/

/-- The case a `select` statement of the session takes. -/
inductive SelectCase
  | ticker -- `case <-ticker.C`
  | done   -- `case <-ctx.Done()`
  deriving DecidableEq, Repr

/-- One wake-up of the session's `select`: which channels are ready when it
proceeds.  With both ready Go picks one case pseudo-randomly. -/
inductive Wake
  | ticker                    -- only `ticker.C` is ready
  | done                      -- only `ctx.Done()` is ready
  | both (pick : SelectCase)  -- both are ready
  deriving DecidableEq, Repr

/-- The case taken at a wake-up. -/
def Wake.choice : Wake → SelectCase
  | Wake.ticker => SelectCase.ticker
  | Wake.done => SelectCase.done
  | Wake.both pick => pick

/-- Whether the context is already cancelled at a wake-up (`ctx.Done()` ready). -/
def Wake.cancelled : Wake → Bool
  | Wake.ticker => false
  | Wake.done => true
  | Wake.both _ => true

/-- One call `go onTrigger(triggerNum, triggerDuration)`. -/
structure TriggerCall where
  triggerNum : Nat
  triggerDuration : Int
  deriving DecidableEq, Repr

/-- How a session ends on a given sequence of wake-ups: the loop condition
fails (`completed`), the cancel case returns (`cancelled`), the goroutine
panics, or the wake-ups run out while it blocks in `select` (`waiting`). -/
inductive Exit
  | completed
  | cancelled
  | waiting
  | panicked (f : Fault)
  deriving DecidableEq, Repr

/-- The scan `for i := 0; i < numTriggers; i++ { if progress >= start(triggers[i])
{ nextTrigger = i + 1 } }`, from index `i` on with the current `nextTrigger`. -/
def findNext (progress : Int) : List TimeInterval → Nat → Nat → Nat
  | [], _, nextTrigger => nextTrigger
  | t :: ts, i, nextTrigger =>
    findNext progress ts (i + 1) (if progress ≥ t.Start then i + 1 else nextTrigger)

/-- The loop `for nextTrigger < numTriggers-1 { select { ... } }`. -/
def waitLoop (triggers : List TimeInterval) :
    Nat → List Wake → List TriggerCall × Exit
  | nextTrigger, [] =>
    if (nextTrigger : Int) < (triggers.length : Int) - 1 then ([], Exit.waiting)
    else ([], Exit.completed)
  | nextTrigger, w :: rest =>
    if (nextTrigger : Int) < (triggers.length : Int) - 1 then
      match w.choice with
      | SelectCase.done => ([], Exit.cancelled)
      | SelectCase.ticker =>
        match triggers[nextTrigger + 1]? with
        | none => ([], Exit.panicked Fault.indexOutOfRange)
        | some t =>
          if t.Duration ≤ 0 then ([], Exit.panicked Fault.nonPositiveInterval)
          else
            (⟨nextTrigger + 1, t.Duration⟩ :: (waitLoop triggers (nextTrigger + 1) rest).1,
             (waitLoop triggers (nextTrigger + 1) rest).2)
    else ([], Exit.completed)

/-- The wake-ups of a session that precede the first one at which its context is
cancelled. -/
def beforeCancellation (sched : List Wake) : List Wake :=
  sched.takeWhile (fun w => !w.cancelled)

/-- The `switch trigger`: bars for `Bar`, beats otherwise. -/
def selectTriggers (trigger : TriggerType) (mediaAnalysis : MediaAudioAnalysis) :
    List TimeInterval :=
  if trigger = Bar then mediaAnalysis.Bars else mediaAnalysis.Beats

/-- The offset `progress := time.Duration(currPlay.Progress) * time.Millisecond`. -/
def progressOf (currPlay : Media) : Int := currPlay.Progress * Millisecond

/-- The part of a session after the scan: index the timeline at `nextTrigger`,
arm the first ticker, run the wait loop. -/
def afterScan (triggers : List TimeInterval) (progress : Int) (nextTrigger : Nat)
    (sched : List Wake) : List TriggerCall × Exit :=
  match triggers[nextTrigger]? with
  | none => ([], Exit.panicked Fault.indexOutOfRange)
  | some t =>
    let timeTillNextTrigger := t.Start - progress
    if timeTillNextTrigger ≤ 0 then ([], Exit.panicked Fault.nonPositiveInterval)
    else waitLoop triggers nextTrigger sched

/-- The session `startTriggerSync(ctx, currPlay, mediaAnalysis, trigger)` on a
sequence of wake-ups. -/
def startTriggerSync (currPlay : Media) (mediaAnalysis : MediaAudioAnalysis)
    (trigger : TriggerType) (sched : List Wake) : List TriggerCall × Exit :=
  let triggers := selectTriggers trigger mediaAnalysis
  let progress := progressOf currPlay
  let nextTrigger := findNext progress triggers 0 0
  afterScan triggers progress nextTrigger sched

/-- The session `triggerBeats(ctx, currPlay, mediaAnalysis)` of the older entry
point; `spew.Dump(triggers[0])` indexes the timeline first. -/
def triggerBeats (currPlay : Media) (mediaAnalysis : MediaAudioAnalysis)
    (sched : List Wake) : List TriggerCall × Exit :=
  let triggers := mediaAnalysis.Beats
  match triggers[0]? with
  | none => ([], Exit.panicked Fault.indexOutOfRange)
  | some _ =>
    let progress := progressOf currPlay
    let nextTrigger := findNext progress triggers 0 0
    afterScan triggers progress nextTrigger sched

/-! ## Expected calls and concrete scenarios -/

/-- The calls `onTrigger(k, duration of event k)` for `count` consecutive
indices from `first` on. -/
def callsFrom (triggers : List TimeInterval) (first count : Nat) : List TriggerCall :=
  (List.range' first count).map
    (fun k => { triggerNum := k, triggerDuration := (triggers[k]?.map (·.Duration)).getD 0 })

/-- A snapshot of track `A`. -/
def trackA (isPlaying : Bool) (progress : Int) : Media :=
  { Item := { ID := "A", Name := "track A" }, IsPlaying := isPlaying, Progress := progress }

/-- A snapshot of track `B`. -/
def trackB (isPlaying : Bool) (progress : Int) : Media :=
  { Item := { ID := "B", Name := "track B" }, IsPlaying := isPlaying, Progress := progress }

/-- An analysis with no beats and no bars. -/
def emptyAnalysis : MediaAudioAnalysis := { Beats := [], Bars := [] }

/-- Three beats starting at 0 s, 1 s and 2 s, one second long each. -/
def threeBeats : MediaAudioAnalysis :=
  { Beats := [⟨0, Second⟩, ⟨Second, Second⟩, ⟨2 * Second, Second⟩], Bars := [] }

/-- Two beats starting at 0.5 s and 1.5 s, one second long each. -/
def twoBeats : MediaAudioAnalysis :=
  { Beats := [⟨500 * Millisecond, Second⟩, ⟨1500 * Millisecond, Second⟩], Bars := [] }

/-- Five beats starting at 0 s, 1 s, 2 s, 3 s and 4 s, one second long each. -/
def fiveBeats : MediaAudioAnalysis :=
  { Beats := [⟨0, Second⟩, ⟨Second, Second⟩, ⟨2 * Second, Second⟩, ⟨3 * Second, Second⟩,
              ⟨4 * Second, Second⟩],
    Bars := [] }

/-- Three beats starting at 10 s, 20 s and 30 s, ten seconds long each. -/
def slowBeats : MediaAudioAnalysis :=
  { Beats := [⟨10 * Second, 10 * Second⟩, ⟨20 * Second, 10 * Second⟩,
              ⟨30 * Second, 10 * Second⟩], Bars := [] }

/-- An iteration that polls `currPlay` with trigger type `Beat` and whose two
fetches succeed, the timeline being `slowBeats`. -/
def pollOk (currPlay : Media) : TickInput :=
  { currPlay := currPlay, currentTriggerType := Beat,
    analysis := some slowBeats, features := some {} }

/-- An iteration that polls `currPlay` with the given trigger type and whose
timeline fetch fails. -/
def pollFail (currPlay : Media) (trigger : TriggerType) : TickInput :=
  { currPlay := currPlay, currentTriggerType := trigger, analysis := none, features := none }

/-- An iteration of `run` that polls `currPlay` and whose timeline fetch fails. -/
def runPollFail (currPlay : Media) : RunInput :=
  { currPlay := currPlay, analysis := none, features := none }

/-- The loop variables after a session was launched on a paused track `B`:
the state reached from `initState (trackA false 0) Beat` by polling track `A`
playing and then track `B` paused. -/
def detectingPausedB : LoopState :=
  { lastPlaying := trackB false 0, isDetecting := true, lastTrigger := Beat,
    cancel := some 1, ctxCount := 2 }

/-- The loop variables after the first iteration abandoned its start branch. -/
def afterFailedStart : LoopState :=
  { lastPlaying := trackA true 0, isDetecting := false, lastTrigger := Beat,
    cancel := some 0, ctxCount := 1 }

/-- The loop variables while a session runs on track `A`. -/
def detectingA : LoopState :=
  { lastPlaying := trackA true 0, isDetecting := true, lastTrigger := Beat,
    cancel := some 0, ctxCount := 1 }

/-! ## The polling loop: classification and branch conditions -/

/-- The threshold of `progressChanged`, poll interval plus one second counted in
milliseconds, is 3000. -/
theorem threshold_eq : (tickerInterval + Second) / Millisecond = 3000 := by decide

/-- With no session running and a playing snapshot the stop branch is skipped:
this is the case the guard `!playingWithoutDetection` covers. -/
theorem stopCondition_false_of_playingWithoutDetection (s : LoopState) (inp : TickInput)
    (hdet : s.isDetecting = false) (hplay : inp.currPlay.IsPlaying = true) :
    stopCondition s inp = false := by
  simp [stopCondition, playingWithoutDetection, hdet, hplay]

/-- C9: `progressChanged` is true exactly when the absolute progress difference
exceeds the poll interval plus one second, that is 3000 ms, and it is false at
exactly 3000 ms. -/
theorem C9_progressChanged_iff (lastPlaying currPlay : Media) :
    (tickerInterval + Second) / Millisecond = 3000
    ∧ (progressChanged lastPlaying currPlay = true
        ↔ |currPlay.Progress - lastPlaying.Progress| > 3000)
    ∧ (|currPlay.Progress - lastPlaying.Progress| = 3000
        → progressChanged lastPlaying currPlay = false) := by
  refine ⟨threshold_eq, ?_, ?_⟩
  · simp [progressChanged, progressDelta, threshold_eq]
  · intro h
    simp [progressChanged, progressDelta, threshold_eq, h]

/-- C8: same media, same play state, progress difference at most 3000 ms,
unchanged trigger type and a running session give no changed flag, neither the
stop nor the start branch, and an iteration without any effect. -/
theorem C8_no_change_no_branch (s : LoopState) (inp : TickInput)
    (hid : s.lastPlaying.Item.ID = inp.currPlay.Item.ID)
    (hplay : s.lastPlaying.IsPlaying = inp.currPlay.IsPlaying)
    (hprog : |inp.currPlay.Progress - s.lastPlaying.Progress| ≤ 3000)
    (htrig : inp.currentTriggerType = s.lastTrigger)
    (hdet : s.isDetecting = true) :
    changeInPlayState s.lastPlaying inp.currPlay = false
    ∧ changeInMedia s.lastPlaying inp.currPlay = false
    ∧ progressChanged s.lastPlaying inp.currPlay = false
    ∧ stopCondition s inp = false
    ∧ startCondition s inp = false
    ∧ (tick s inp).1 = [] := by
  have h1 : changeInPlayState s.lastPlaying inp.currPlay = false := by
    simp [changeInPlayState, hplay]
  have h2 : changeInMedia s.lastPlaying inp.currPlay = false := by
    simp [changeInMedia, hid]
  have h4 : progressChanged s.lastPlaying inp.currPlay = false := by
    simp [progressChanged, progressDelta, threshold_eq, hprog]
  have h5 : stopCondition s inp = false := by
    simp [stopCondition, h1, h2, h4, triggerTypeChanged, htrig]
  have h6 : startCondition s inp = false := by
    simp [startCondition, h1, h2, h4, triggerTypeChanged, htrig, playingWithoutDetection, hdet]
  refine ⟨h1, h2, h4, h5, h6, ?_⟩
  unfold tick
  split
  · rfl
  · simp [h5, h6]

/-- C8 at a concrete iteration: track `A` playing, 2000 ms further, session
running. -/
theorem C8_no_change_no_branch_witness :
    changeInPlayState detectingA.lastPlaying (pollOk (trackA true 2000)).currPlay = false
    ∧ changeInMedia detectingA.lastPlaying (pollOk (trackA true 2000)).currPlay = false
    ∧ progressChanged detectingA.lastPlaying (pollOk (trackA true 2000)).currPlay = false
    ∧ stopCondition detectingA (pollOk (trackA true 2000)) = false
    ∧ startCondition detectingA (pollOk (trackA true 2000)) = false
    ∧ (tick detectingA (pollOk (trackA true 2000))).1 = [] :=
  C8_no_change_no_branch detectingA (pollOk (trackA true 2000))
    (by decide) (by decide) (by decide) (by decide) (by decide)

/-- C1: in the state before the first iteration (no session, `cancel` nil) a
paused snapshot of the track that was playing takes the stop branch, and the
call of the nil `cancel` panics; `run` does the same. -/
theorem C1_stop_branch_with_nil_cancel :
    (initState (trackA true 0) Beat).isDetecting = false
    ∧ (initState (trackA true 0) Beat).cancel = none
    ∧ stopCondition (initState (trackA true 0) Beat) (pollOk (trackA false 0)) = true
    ∧ tick (initState (trackA true 0) Beat) (pollOk (trackA false 0))
        = ([Effect.logStopping], Res.panic Fault.nilCall)
    ∧ startSpotifySync (trackA true 0) Beat [pollOk (trackA false 0)]
        = ([Effect.logStopping], Res.panic Fault.nilCall)
    ∧ run (trackA true 0) [runPollFail (trackA false 0)]
        = ([Effect.logStopping], Res.panic Fault.nilCall) := by
  decide

/-- C4: polling track `A` playing, track `B` paused, track `B` playing launches
three sessions and cancels only the first; the third iteration starts with
`isDetecting` true, skips the stop branch and launches, so sessions 1 and 2 are
both launched and not cancelled, each blocked in its `select`. -/
theorem C4_resume_leaves_two_sessions :
    startSpotifySync (trackA false 0) Beat [pollOk (trackA true 0), pollOk (trackB false 0)]
      = ([Effect.logStarting, Effect.withCancel 0, Effect.sendNewMedia (trackA true 0),
          Effect.sendMediaFeatures {}, Effect.goSession 0 (trackA true 0) slowBeats Beat,
          Effect.logStopping, Effect.cancelCall 0,
          Effect.logStarting, Effect.withCancel 1, Effect.sendNewMedia (trackB false 0),
          Effect.sendMediaFeatures {}, Effect.goSession 1 (trackB false 0) slowBeats Beat],
         Res.ok detectingPausedB)
    ∧ detectingPausedB.isDetecting = true
    ∧ stopCondition detectingPausedB (pollOk (trackB true 0)) = false
    ∧ tick detectingPausedB (pollOk (trackB true 0))
      = ([Effect.logStarting, Effect.withCancel 2, Effect.sendNewMedia (trackB true 0),
          Effect.sendMediaFeatures {}, Effect.goSession 2 (trackB true 0) slowBeats Beat],
         Res.ok { lastPlaying := trackB true 0, isDetecting := true, lastTrigger := Beat,
                  cancel := some 2, ctxCount := 3 })
    ∧ liveSessions (startSpotifySync (trackA false 0) Beat
        [pollOk (trackA true 0), pollOk (trackB false 0), pollOk (trackB true 0)]).1 = [1, 2]
    ∧ startTriggerSync (trackB false 0) slowBeats Beat [] = ([], Exit.waiting)
    ∧ startTriggerSync (trackB true 0) slowBeats Beat [] = ([], Exit.waiting) := by
  decide

/-- C6, refuted as stated: the first iteration polls track `A` 1000 ms further
with trigger type `Bar`, takes the start branch, the timeline fetch fails, and
the iteration ends with the previous snapshot and the previous trigger type. -/
theorem C6_failed_fetch_keeps_last :
    (pollFail (trackA true 1000) Bar).currPlay.Item.ID ≠ ""
    ∧ startCondition (initState (trackA true 0) Beat) (pollFail (trackA true 1000) Bar) = true
    ∧ (tick (initState (trackA true 0) Beat) (pollFail (trackA true 1000) Bar)).2
        = Res.ok afterFailedStart
    ∧ afterFailedStart.lastPlaying ≠ (pollFail (trackA true 1000) Bar).currPlay
    ∧ afterFailedStart.lastTrigger ≠ (pollFail (trackA true 1000) Bar).currentTriggerType := by
  decide

/-- C6, amended: an iteration that gets past the no-media check and completes
ends with `lastPlaying` the polled snapshot and `lastTrigger` the current trigger
type whenever the start branch is not taken or both fetches succeed; when the
start branch is taken and a fetch fails both keep their previous value. -/
theorem C6_last_updated_unless_fetch_failed (s s' : LoopState) (inp : TickInput)
    (hid : inp.currPlay.Item.ID ≠ "")
    (htick : (tick s inp).2 = Res.ok s') :
    ((startCondition s inp = false ∨ (inp.analysis ≠ none ∧ inp.features ≠ none)) →
        s'.lastPlaying = inp.currPlay ∧ s'.lastTrigger = inp.currentTriggerType)
    ∧ ((startCondition s inp = true ∧ (inp.analysis = none ∨ inp.features = none)) →
        s'.lastPlaying = s.lastPlaying ∧ s'.lastTrigger = s.lastTrigger) := by
  unfold tick at htick
  rw [if_neg hid] at htick
  cases hstop : stopCondition s inp <;> cases hstart : startCondition s inp <;>
    cases hc : s.cancel <;> cases ha : inp.analysis <;> cases hf : inp.features <;>
    simp_all [stopBranch, startBranch] <;> subst htick <;> simp

/-- C6 amended, at an iteration that stops and restarts a running session:
track `B` replaces track `A`, both fetches succeed, and the iteration ends with
the polled snapshot and the current trigger type. -/
theorem C6_last_updated_unless_fetch_failed_witness :
    (pollOk (trackB true 0)).currPlay.Item.ID ≠ ""
    ∧ (tick detectingA (pollOk (trackB true 0))).2
        = Res.ok { lastPlaying := trackB true 0, isDetecting := true, lastTrigger := Beat,
                   cancel := some 1, ctxCount := 2 }
    ∧ (((startCondition detectingA (pollOk (trackB true 0)) = false
          ∨ ((pollOk (trackB true 0)).analysis ≠ none
              ∧ (pollOk (trackB true 0)).features ≠ none)) →
        trackB true 0 = (pollOk (trackB true 0)).currPlay
          ∧ Beat = (pollOk (trackB true 0)).currentTriggerType)
      ∧ ((startCondition detectingA (pollOk (trackB true 0)) = true
          ∧ ((pollOk (trackB true 0)).analysis = none
              ∨ (pollOk (trackB true 0)).features = none)) →
        trackB true 0 = detectingA.lastPlaying ∧ Beat = detectingA.lastTrigger)) :=
  ⟨by decide, by decide,
    C6_last_updated_unless_fetch_failed detectingA
      { lastPlaying := trackB true 0, isDetecting := true, lastTrigger := Beat,
        cancel := some 1, ctxCount := 2 }
      (pollOk (trackB true 0)) (by decide) (by decide)⟩

/-- The same for `run`: `lastPlaying` is the polled snapshot after a completed
iteration unless the start branch was abandoned on a failed fetch. -/
theorem runTick_last_updated_unless_fetch_failed (s s' : RunState) (inp : RunInput)
    (hid : inp.currPlay.Item.ID ≠ "")
    (htick : (runTick s inp).2 = Res.ok s') :
    ((runStartCondition s inp = false ∨ (inp.analysis ≠ none ∧ inp.features ≠ none)) →
        s'.lastPlaying = inp.currPlay)
    ∧ ((runStartCondition s inp = true ∧ (inp.analysis = none ∨ inp.features = none)) →
        s'.lastPlaying = s.lastPlaying) := by
  unfold runTick at htick
  rw [if_neg hid] at htick
  cases hstop : runStopCondition s inp <;> cases hstart : runStartCondition s inp <;>
    cases hc : s.cancel <;> cases ha : inp.analysis <;> cases hf : inp.features <;>
    simp_all [runStopBranch, runStartBranch] <;> subst htick <;> simp

/-- After a start decision on a playing snapshot, the start condition holds
again for the same snapshot from any state that kept the previous snapshot and
trigger type and whose `isDetecting` is what the stop branch left. -/
theorem startCondition_retry (s s1 : LoopState) (inp inp2 : TickInput)
    (hplay : inp.currPlay.IsPlaying = true)
    (hstart : startCondition s inp = true)
    (hlp : s1.lastPlaying = s.lastPlaying)
    (hlt : s1.lastTrigger = s.lastTrigger)
    (hdet : s1.isDetecting = (if stopCondition s inp = true then false else s.isDetecting))
    (hsame : inp2.currPlay = inp.currPlay) :
    startCondition s1 inp2 = true := by
  simp only [startCondition, stopCondition, playingWithoutDetection, hplay, hlp, hlt, hdet,
    hsame] at *
  generalize changeInPlayState s.lastPlaying inp.currPlay = a at *
  generalize changeInMedia s.lastPlaying inp.currPlay = b at *
  generalize progressChanged s.lastPlaying inp.currPlay = p at *
  generalize triggerTypeChanged inp.currentTriggerType s.lastTrigger = d1 at *
  generalize triggerTypeChanged inp2.currentTriggerType s.lastTrigger = d2 at *
  generalize s.isDetecting = det at *
  revert hstart
  revert a b p d1 d2 det
  decide

/-- An iteration with media, a non-nil `cancel` and a true start condition
reaches the start branch. -/
theorem tick_logStarting (s : LoopState) (inp : TickInput) (k : Nat)
    (hid : inp.currPlay.Item.ID ≠ "") (hc : s.cancel = some k)
    (hst : startCondition s inp = true) :
    Effect.logStarting ∈ (tick s inp).1 := by
  unfold tick
  rw [if_neg hid]
  cases hstop : stopCondition s inp <;> cases ha : inp.analysis <;> cases hf : inp.features <;>
    simp [hst, hc, stopBranch, startBranch, ha, hf]

/-- C7: after an iteration that took the start branch for a playing snapshot and
abandoned it on a failed timeline fetch, the next iteration polling the same
snapshot takes the start branch again, from every loop state and for every
trigger type and fetch result of the next iteration. -/
theorem C7_failed_start_is_retried (s s1 : LoopState) (inp inp2 : TickInput)
    (hstart : Effect.logStarting ∈ (tick s inp).1)
    (hplay : inp.currPlay.IsPlaying = true)
    (hfail : inp.analysis = none)
    (htick : (tick s inp).2 = Res.ok s1)
    (hsame : inp2.currPlay = inp.currPlay) :
    startCondition s1 inp2 = true ∧ Effect.logStarting ∈ (tick s1 inp2).1 := by
  have hid : inp.currPlay.Item.ID ≠ "" := by
    intro h
    simp [tick, h] at hstart
  have hid2 : inp2.currPlay.Item.ID ≠ "" := by rw [hsame]; exact hid
  unfold tick at hstart htick
  rw [if_neg hid] at hstart htick
  have hfacts : startCondition s inp = true ∧ s1.lastPlaying = s.lastPlaying
      ∧ s1.lastTrigger = s.lastTrigger
      ∧ s1.isDetecting = (if stopCondition s inp = true then false else s.isDetecting)
      ∧ s1.cancel = some s.ctxCount := by
    cases hstop : stopCondition s inp <;> cases hst : startCondition s inp <;>
      cases hc : s.cancel <;>
      simp [hstop, hst, hc, stopBranch, startBranch, hfail] at hstart htick <;>
      subst htick <;> simp
  obtain ⟨hst, hlp, hlt, hdet, hc⟩ := hfacts
  have h2 := startCondition_retry s s1 inp inp2 hplay hst hlp hlt hdet hsame
  exact ⟨h2, tick_logStarting s1 inp2 _ hid2 hc h2⟩

/-- C7 at a concrete run: a session runs on a paused track `A`, the track
resumes, the timeline fetch fails, and the next poll of the same snapshot, now
with trigger type `Bar`, starts again. -/
theorem C7_failed_start_is_retried_witness :
    Effect.logStarting ∈ (tick { detectingA with lastPlaying := trackA false 0 }
        (pollFail (trackA true 1000) Beat)).1
    ∧ (tick { detectingA with lastPlaying := trackA false 0 }
        (pollFail (trackA true 1000) Beat)).2
        = Res.ok { lastPlaying := trackA false 0, isDetecting := true, lastTrigger := Beat,
                   cancel := some 1, ctxCount := 2 }
    ∧ startCondition { lastPlaying := trackA false 0, isDetecting := true, lastTrigger := Beat,
                       cancel := some 1, ctxCount := 2 }
        { pollOk (trackA true 1000) with currentTriggerType := Bar } = true
    ∧ Effect.logStarting ∈ (tick { lastPlaying := trackA false 0, isDetecting := true,
                                   lastTrigger := Beat, cancel := some 1, ctxCount := 2 }
        { pollOk (trackA true 1000) with currentTriggerType := Bar }).1 :=
  ⟨by decide, by decide,
    C7_failed_start_is_retried { detectingA with lastPlaying := trackA false 0 }
      { lastPlaying := trackA false 0, isDetecting := true, lastTrigger := Beat,
        cancel := some 1, ctxCount := 2 }
      (pollFail (trackA true 1000) Beat)
      { pollOk (trackA true 1000) with currentTriggerType := Bar }
      (by decide) (by decide) (by decide) (by decide) (by decide)⟩

/-! ## The trigger session: the scan -/

/-- The scan either keeps `nextTrigger`, every event starting after `progress`,
or ends one past the last event `j` with start `<= progress`. -/
theorem findNext_spec (progress : Int) (ts : List TimeInterval) (i nextTrigger : Nat) :
    (findNext progress ts i nextTrigger = nextTrigger
      ∧ ∀ (k : Nat) (t : TimeInterval), ts[k]? = some t → progress < t.Start)
    ∨ (∃ (j : Nat) (t : TimeInterval), ts[j]? = some t ∧ t.Start ≤ progress
        ∧ findNext progress ts i nextTrigger = i + j + 1
        ∧ ∀ (k : Nat) (t' : TimeInterval), ts[k]? = some t' → j < k → progress < t'.Start) := by
  induction ts generalizing i nextTrigger with
  | nil => left; simp [findNext]
  | cons t ts ih =>
    rw [findNext]
    rcases ih (i + 1) (if progress ≥ t.Start then i + 1 else nextTrigger) with
      ⟨h1, h2⟩ | ⟨j, t', h1, h2, h3, h4⟩
    · by_cases hp : progress ≥ t.Start
      · right
        refine ⟨0, t, by simp, hp, ?_, ?_⟩
        · rw [h1]; simp [hp]
        · intro k t' hk hlt
          cases k with
          | zero => omega
          | succ k => exact h2 k t' (by simpa using hk)
      · left
        refine ⟨by rw [h1]; simp [hp], ?_⟩
        intro k t' hk
        cases k with
        | zero =>
          simp at hk
          subst hk
          omega
        | succ k => exact h2 k t' (by simpa using hk)
    · right
      refine ⟨j + 1, t', by simpa using h1, h2, by rw [h3]; omega, ?_⟩
      intro k t'' hk hlt
      cases k with
      | zero => omega
      | succ k => exact h4 k t'' (by simpa using hk) (by omega)

/-- Every event at or after the located index starts after `progress`. -/
theorem findNext_later_events (progress : Int) (triggers : List TimeInterval)
    (k : Nat) (t : TimeInterval) (hk : triggers[k]? = some t)
    (hle : findNext progress triggers 0 0 ≤ k) : progress < t.Start := by
  rcases findNext_spec progress triggers 0 0 with ⟨_, h2⟩ | ⟨j, t0, _, _, h3, h4⟩
  · exact h2 k t hk
  · exact h4 k t hk (by omega)

/-- When no event starts after `progress` the scan ends at the number of
events. -/
theorem findNext_eq_length (progress : Int) (triggers : List TimeInterval)
    (hall : ∀ t ∈ triggers, t.Start ≤ progress) :
    findNext progress triggers 0 0 = triggers.length := by
  have hnone : ∀ (k : Nat) (t : TimeInterval), triggers[k]? = some t → ¬ progress < t.Start := by
    intro k t hk hlt
    have := hall t (List.mem_iff_getElem?.2 ⟨k, hk⟩)
    omega
  have hle : findNext progress triggers 0 0 ≤ triggers.length := by
    rcases findNext_spec progress triggers 0 0 with ⟨h1, _⟩ | ⟨j, t, h1, _, h3, _⟩
    · omega
    · rcases List.getElem?_eq_some.1 h1 with ⟨h, _⟩
      omega
  by_contra hne
  have hlt : findNext progress triggers 0 0 < triggers.length := by omega
  exact hnone _ _ (List.getElem?_eq_getElem hlt)
    (findNext_later_events progress triggers _ _ (List.getElem?_eq_getElem hlt) (le_refl _))

/-- C10: the scan leaves `nextTrigger` one past the greatest index whose event
starts at or before the start offset, 0 when there is none; every event at an
index from `nextTrigger` on starts strictly after the start offset. -/
theorem C10_findNext_one_past_last_passed (progress : Int) (triggers : List TimeInterval) :
    (∀ (j : Nat) (t : TimeInterval), triggers[j]? = some t → t.Start ≤ progress →
        (∀ (k : Nat) (t' : TimeInterval), triggers[k]? = some t' → t'.Start ≤ progress → k ≤ j) →
        findNext progress triggers 0 0 = j + 1)
    ∧ ((∀ (k : Nat) (t : TimeInterval), triggers[k]? = some t → ¬ t.Start ≤ progress) →
        findNext progress triggers 0 0 = 0)
    ∧ (∀ (k : Nat) (t : TimeInterval), triggers[k]? = some t →
        findNext progress triggers 0 0 ≤ k → progress < t.Start)
    ∧ findNext progress triggers 0 0 ≤ triggers.length := by
  rcases findNext_spec progress triggers 0 0 with ⟨h1, h2⟩ | ⟨j, t, h1, h2, h3, h4⟩
  · refine ⟨?_, ?_, ?_, ?_⟩
    · intro j t hj hle _
      have := h2 j t hj
      omega
    · intro _; exact h1
    · intro k t hk _; exact h2 k t hk
    · omega
  · have hjlt : j < triggers.length := by
      rcases List.getElem?_eq_some.1 h1 with ⟨h, _⟩
      exact h
    refine ⟨?_, ?_, ?_, ?_⟩
    · intro j' t' hj' hle hmax
      have h5 : j ≤ j' := hmax j t h1 h2
      by_cases hlt : j < j'
      · have := h4 j' t' hj' hlt
        omega
      · omega
    · intro hnone
      exact absurd h2 (hnone j t h1)
    · intro k t' hk hle
      exact h4 k t' hk (by omega)
    · omega

/-! ## The trigger session: the wait loop -/

/-- A wake-up that takes the `ctx.Done()` case ends the loop: the calls are those
made on the wake-ups before it. -/
theorem waitLoop_append_done (triggers : List TimeInterval) (w : Wake) (rest : List Wake)
    (hw : w.choice = SelectCase.done) (pre : List Wake) (nextTrigger : Nat) :
    waitLoop triggers nextTrigger (pre ++ w :: rest)
      = if (waitLoop triggers nextTrigger pre).2 = Exit.waiting
        then ((waitLoop triggers nextTrigger pre).1, Exit.cancelled)
        else waitLoop triggers nextTrigger pre := by
  induction pre generalizing nextTrigger with
  | nil =>
    simp only [List.nil_append, waitLoop]
    by_cases hg : (nextTrigger : Int) < (triggers.length : Int) - 1
    · simp [hg, hw]
    · simp [hg]
  | cons v pre ih =>
    simp only [List.cons_append, waitLoop]
    by_cases hg : (nextTrigger : Int) < (triggers.length : Int) - 1
    · simp only [hg, if_true]
      cases hv : v.choice with
      | done => simp
      | ticker =>
        simp only
        cases ht : triggers[nextTrigger + 1]? with
        | none => simp
        | some t =>
          simp only
          by_cases hd : t.Duration ≤ 0
          · simp [hd]
          · simp only [hd, if_false]
            rw [List.append_eq, ih (nextTrigger + 1)]
            by_cases hwait : (waitLoop triggers (nextTrigger + 1) pre).2 = Exit.waiting
            · simp [hwait]
            · simp [hwait]
    · simp [hg]

/-- The same for the session after its scan. -/
theorem afterScan_append_done (triggers : List TimeInterval) (progress : Int)
    (nextTrigger : Nat) (w : Wake) (rest : List Wake)
    (hw : w.choice = SelectCase.done) (pre : List Wake) :
    afterScan triggers progress nextTrigger (pre ++ w :: rest)
      = if (afterScan triggers progress nextTrigger pre).2 = Exit.waiting
        then ((afterScan triggers progress nextTrigger pre).1, Exit.cancelled)
        else afterScan triggers progress nextTrigger pre := by
  unfold afterScan
  cases triggers[nextTrigger]? with
  | none => simp
  | some t =>
    simp only
    by_cases hd : t.Start - progress ≤ 0
    · simp [hd]
    · simp only [hd, if_false]
      exact waitLoop_append_done triggers w rest hw pre nextTrigger

/-- With only ticker wake-ups, enough of them, and positive durations, the loop
calls `onTrigger` for the indices `nextTrigger + 1` to the last one and
completes. -/
theorem waitLoop_all_ticker (triggers : List TimeInterval) (m nextTrigger : Nat)
    (hpos : ∀ (k : Nat) (t : TimeInterval), nextTrigger < k → triggers[k]? = some t →
      0 < t.Duration)
    (hm : triggers.length ≤ nextTrigger + 1 + m) :
    waitLoop triggers nextTrigger (List.replicate m Wake.ticker)
      = (callsFrom triggers (nextTrigger + 1) (triggers.length - 1 - nextTrigger),
         Exit.completed) := by
  induction m generalizing nextTrigger with
  | zero =>
    have hz : triggers.length - 1 - nextTrigger = 0 := by omega
    have hg : ¬ ((nextTrigger : Int) < (triggers.length : Int) - 1) := by omega
    simp [waitLoop, hg, hz, callsFrom]
  | succ m ih =>
    rw [List.replicate_succ, waitLoop]
    by_cases hg : (nextTrigger : Int) < (triggers.length : Int) - 1
    · have hlt : nextTrigger + 1 < triggers.length := by omega
      have hsome : triggers[nextTrigger + 1]? = some triggers[nextTrigger + 1] :=
        List.getElem?_eq_getElem hlt
      have hd : ¬ (triggers[nextTrigger + 1].Duration ≤ 0) := by
        have := hpos (nextTrigger + 1) _ (by omega) hsome
        omega
      have hcount : triggers.length - 1 - nextTrigger
          = (triggers.length - 1 - (nextTrigger + 1)) + 1 := by omega
      rw [ih (nextTrigger + 1) (fun k t hk => hpos k t (by omega)) (by omega)]
      simp only [hg, if_true, Wake.choice, hsome, hd, if_false]
      rw [hcount, callsFrom, callsFrom, List.range'_succ]
      simp [hsome]
    · have hz : triggers.length - 1 - nextTrigger = 0 := by omega
      simp [hg, hz, callsFrom]

/-- What an uncancelled session does when the located index `c` is below the
number `n` of events and the durations are positive: it calls `onTrigger` for
`c + 1, ..., n - 1` and completes; index `c` itself is never passed to
`onTrigger`. -/
theorem startTriggerSync_uncancelled (currPlay : Media) (mediaAnalysis : MediaAudioAnalysis)
    (trigger : TriggerType) (m : Nat)
    (hc : findNext (progressOf currPlay) (selectTriggers trigger mediaAnalysis) 0 0
            < (selectTriggers trigger mediaAnalysis).length)
    (hpos : ∀ t ∈ selectTriggers trigger mediaAnalysis, 0 < t.Duration)
    (hm : (selectTriggers trigger mediaAnalysis).length ≤ m) :
    startTriggerSync currPlay mediaAnalysis trigger (List.replicate m Wake.ticker)
      = (callsFrom (selectTriggers trigger mediaAnalysis)
          (findNext (progressOf currPlay) (selectTriggers trigger mediaAnalysis) 0 0 + 1)
          ((selectTriggers trigger mediaAnalysis).length - 1
            - findNext (progressOf currPlay) (selectTriggers trigger mediaAnalysis) 0 0),
         Exit.completed) := by
  unfold startTriggerSync afterScan
  simp only [List.getElem?_eq_getElem hc]
  have hstart := findNext_later_events (progressOf currPlay)
    (selectTriggers trigger mediaAnalysis) _ _ (List.getElem?_eq_getElem hc) (le_refl _)
  have hnot : ¬ ((selectTriggers trigger mediaAnalysis)[findNext (progressOf currPlay)
      (selectTriggers trigger mediaAnalysis) 0 0].Start - progressOf currPlay ≤ 0) := by omega
  rw [if_neg hnot]
  apply waitLoop_all_ticker
  · intro k t _ hk
    exact hpos t (List.mem_iff_getElem?.2 ⟨k, hk⟩)
  · omega

/-- What a session does when no event starts after the playback position: the
scan ends at the number of events and `triggers[nextTrigger]` panics, whatever
the wake-ups. -/
theorem startTriggerSync_past_every_start (currPlay : Media)
    (mediaAnalysis : MediaAudioAnalysis) (trigger : TriggerType) (sched : List Wake)
    (hall : ∀ t ∈ selectTriggers trigger mediaAnalysis, t.Start ≤ progressOf currPlay) :
    startTriggerSync currPlay mediaAnalysis trigger sched
      = ([], Exit.panicked Fault.indexOutOfRange) := by
  unfold startTriggerSync afterScan
  simp [findNext_eq_length _ _ hall]

/-- C2: on the two timelines of the claim an uncancelled session at offset 0
does not fire the located index. With events at 0 s, 1 s, 2 s the cursor is 1
and the only call is for index 2; with events at 0.5 s and 1.5 s the cursor is
0 and the only call is for index 1. -/
theorem C2_session_skips_located_event :
    findNext (progressOf (trackA true 0)) (selectTriggers Beat threeBeats) 0 0 = 1
    ∧ startTriggerSync (trackA true 0) threeBeats Beat (List.replicate 3 Wake.ticker)
        = ([⟨2, Second⟩], Exit.completed)
    ∧ findNext (progressOf (trackA true 0)) (selectTriggers Beat twoBeats) 0 0 = 0
    ∧ startTriggerSync (trackA true 0) twoBeats Beat (List.replicate 2 Wake.ticker)
        = ([⟨1, Second⟩], Exit.completed)
    ∧ triggerBeats (trackA true 0) twoBeats (List.replicate 2 Wake.ticker)
        = ([⟨1, Second⟩], Exit.completed) := by
  decide

/-- C3: with an empty timeline, and with three beats all before the offset
5000 ms, the cursor is the number of events, no call is made, and the session
panics on `triggers[nextTrigger]`; `triggerBeats` panics as well. -/
theorem C3_session_past_the_end_panics :
    findNext (progressOf (trackA true 5000)) (selectTriggers Beat emptyAnalysis) 0 0 = 0
    ∧ startTriggerSync (trackA true 5000) emptyAnalysis Beat []
        = ([], Exit.panicked Fault.indexOutOfRange)
    ∧ findNext (progressOf (trackA true 5000)) (selectTriggers Beat threeBeats) 0 0 = 3
    ∧ startTriggerSync (trackA true 5000) threeBeats Beat []
        = ([], Exit.panicked Fault.indexOutOfRange)
    ∧ triggerBeats (trackA true 5000) emptyAnalysis []
        = ([], Exit.panicked Fault.indexOutOfRange)
    ∧ triggerBeats (trackA true 5000) threeBeats []
        = ([], Exit.panicked Fault.indexOutOfRange) := by
  decide

/-- C5, refuted as stated: with five beats and offset 0 the first wake-up fires
index 2; at the second wake-up the context is cancelled and the ticker is ready
too, the select takes the ticker case and index 3 is fired after the
cancellation; the third wake-up takes the cancel case. -/
theorem C5_fire_after_cancellation :
    Wake.cancelled (Wake.both SelectCase.ticker) = true
    ∧ startTriggerSync (trackA true 0) fiveBeats Beat [Wake.ticker]
        = ([⟨2, Second⟩], Exit.waiting)
    ∧ startTriggerSync (trackA true 0) fiveBeats Beat
        [Wake.ticker, Wake.both SelectCase.ticker, Wake.done]
        = ([⟨2, Second⟩, ⟨3, Second⟩], Exit.cancelled)
    ∧ beforeCancellation [Wake.ticker, Wake.both SelectCase.ticker, Wake.done] = [Wake.ticker]
    ∧ (startTriggerSync (trackA true 0) fiveBeats Beat
        [Wake.ticker, Wake.both SelectCase.ticker, Wake.done]).1
      ≠ (startTriggerSync (trackA true 0) fiveBeats Beat
        (beforeCancellation [Wake.ticker, Wake.both SelectCase.ticker, Wake.done])).1 := by
  decide

/-- C5, amended: once a wake-up of the session takes the `ctx.Done()` case,
which it does whenever the context is cancelled and the ticker case is not
picked, the session makes no further `onTrigger` call: its calls are those of
the wake-ups before, whatever wake-ups would follow, and a session that was
blocked in its `select` returns cancelled. -/
theorem C5_no_call_after_done_case (currPlay : Media) (mediaAnalysis : MediaAudioAnalysis)
    (trigger : TriggerType) (pre rest : List Wake) (w : Wake)
    (hcancelled : w.cancelled = true) (hpick : w ≠ Wake.both SelectCase.ticker) :
    (startTriggerSync currPlay mediaAnalysis trigger (pre ++ w :: rest)).1
        = (startTriggerSync currPlay mediaAnalysis trigger pre).1
    ∧ ((startTriggerSync currPlay mediaAnalysis trigger pre).2 = Exit.waiting →
        (startTriggerSync currPlay mediaAnalysis trigger (pre ++ w :: rest)).2
          = Exit.cancelled)
    ∧ (startTriggerSync currPlay mediaAnalysis trigger (pre ++ w :: rest)).2 ≠ Exit.waiting := by
  have hw : w.choice = SelectCase.done := by
    cases w with
    | ticker => simp [Wake.cancelled] at hcancelled
    | done => rfl
    | both pick =>
      cases pick with
      | ticker => exact absurd rfl hpick
      | done => rfl
  unfold startTriggerSync
  simp only
  rw [afterScan_append_done _ _ _ w rest hw pre]
  by_cases hwait : (afterScan (selectTriggers trigger mediaAnalysis) (progressOf currPlay)
      (findNext (progressOf currPlay) (selectTriggers trigger mediaAnalysis) 0 0) pre).2
      = Exit.waiting
  · simp [hwait]
  · simp [hwait]

/-- C5 amended, cancelling between the first and the second fire: after the
first ticker wake-up the cancel case is taken and the ticker wake-ups that
would follow fire nothing. -/
theorem C5_no_call_after_done_case_witness :
    Wake.cancelled Wake.done = true
    ∧ Wake.done ≠ Wake.both SelectCase.ticker
    ∧ startTriggerSync (trackA true 0) fiveBeats Beat [Wake.ticker]
        = ([⟨2, Second⟩], Exit.waiting)
    ∧ (startTriggerSync (trackA true 0) fiveBeats Beat
          ([Wake.ticker] ++ Wake.done :: [Wake.ticker, Wake.ticker])).1
        = (startTriggerSync (trackA true 0) fiveBeats Beat [Wake.ticker]).1
    ∧ ((startTriggerSync (trackA true 0) fiveBeats Beat [Wake.ticker]).2 = Exit.waiting →
        (startTriggerSync (trackA true 0) fiveBeats Beat
          ([Wake.ticker] ++ Wake.done :: [Wake.ticker, Wake.ticker])).2 = Exit.cancelled)
    ∧ (startTriggerSync (trackA true 0) fiveBeats Beat
          ([Wake.ticker] ++ Wake.done :: [Wake.ticker, Wake.ticker])).2 ≠ Exit.waiting :=
  ⟨by decide, by decide, by decide,
    C5_no_call_after_done_case (trackA true 0) fiveBeats Beat [Wake.ticker]
      [Wake.ticker, Wake.ticker] Wake.done (by decide) (by decide)⟩

end LightBeatGateway
